import Mathlib

/-!
Verification of the accommodation-price aggregation service.

This file is a shallow embedding, in Lean 4, of the core logic of the
service: the pydantic request/record models (`models.py`), the cache-key
derivation and the Redis/MongoDB gateway (`database.py`), the fan-out
orchestrator (`crawler_manager.py`), the retrying HTTP client and one
concrete adapter (`crawlers/base_crawler.py`, `crawlers/airbnb_crawler.py`),
and the FastAPI endpoints with the in-process job registry and the
websocket broadcast (`main.py`).

Conventions of the embedding:
  * Python `datetime.date` values become the `Date` structure below with
    the same lexicographic order and ISO rendering used by `str(date)`.
  * Python floats that the code only stores and compares (coordinates,
    prices, the 0.0/100.0 progress values) become `Rat` or `Nat`.
  * Network, Redis and MongoDB effects become explicit state threaded
    through the functions; time becomes a `Nat` timestamp argument.
  * A Python function that may raise becomes a function into `Except` or
    `Option`; a `try/except` block becomes a `match` on that value.
-/

/-- Calendar date, standing in for Python `datetime.date`.  Only the
lexicographic order and the ISO string rendering are used by the code. -/
structure Date where
  year : Nat
  month : Nat
  day : Nat
deriving DecidableEq, Repr

namespace Date

/-- Strict order on dates: Python `date` comparison (lexicographic). -/
def lt (a b : Date) : Prop :=
  a.year < b.year ∨ (a.year = b.year ∧
    (a.month < b.month ∨ (a.month = b.month ∧ a.day < b.day)))

/-- Non-strict order on dates. -/
def le (a b : Date) : Prop := Date.lt a b ∨ a = b

instance (a b : Date) : Decidable (Date.lt a b) := by
  unfold Date.lt; infer_instance

instance (a b : Date) : Decidable (Date.le a b) := by
  unfold Date.le; infer_instance

/-- Left-pad the decimal rendering of `n` with zeros up to width `w`. -/
def padNat (w n : Nat) : String :=
  let s := toString n
  String.mk (List.replicate (w - s.length) '0') ++ s

/-- Python `str(date)`: ISO `YYYY-MM-DD`. -/
def isoString (d : Date) : String :=
  padNat 4 d.year ++ "-" ++ padNat 2 d.month ++ "-" ++ padNat 2 d.day

end Date

/-! ## `config.py` — the constants the embedded code reads -/

namespace Config

/-- From `config.py` line 26: cache TTL in seconds (default 3600). -/
def CACHE_TTL : Nat := 3600

/-- From `config.py` line 97: fixed per-platform cap on extracted results. -/
def MAX_PRICE_RESULTS_PER_PLATFORM : Nat := 10

end Config

/-! ## `models.py` — pydantic models -/

/-- From `models.py`, `SearchResult`: one price record produced by an adapter.
`fetched_at` is the retrieval timestamp. -/
structure SearchResult where
  platform : String
  property_name : String
  price : Rat
  currency : String := "USD"
  availability : Bool := true
  url : Option String := none
  rating : Option Rat := none
  review_count : Option Nat := none
  amenities : Option (List String) := none
  image_url : Option String := none
  fetched_at : Nat := 0
deriving DecidableEq, Repr

/-- From `models.py`, `PriceRequest`: a validated search request.  Construction
goes through `mkPriceRequest` below, which runs the pydantic validators. -/
structure PriceRequest where
  hotel_name : String
  checkin_date : Date
  checkout_date : Date
  city : String
  state : Option String := none
  country : String
  latitude : Option Rat := none
  longitude : Option Rat := none
deriving DecidableEq, Repr

/-- Range check shared by the `latitude`/`longitude` validators
(`models.py` lines 23-33): `v is not None and (v < -bound or v > bound)`. -/
def coordOutOfRange (bound : Rat) : Option Rat → Bool
  | some v => v < -bound || v > bound
  | none => false

/-- The pydantic validators of `PriceRequest` (`models.py` lines 17-33),
run at construction time, in field-declaration order: the
`checkout_after_checkin` validator rejects `checkout_date <= checkin_date`,
then the coordinate range validators run.  A raised `ValueError` becomes
`Except.error`. -/
def mkPriceRequest (hotel_name : String) (checkin_date checkout_date : Date)
    (city : String) (state : Option String) (country : String)
    (latitude longitude : Option Rat) : Except String PriceRequest :=
  if Date.le checkout_date checkin_date then
    .error "Checkout date must be after checkin date"
  else if coordOutOfRange 90 latitude then
    .error "Latitude must be between -90 and 90"
  else if coordOutOfRange 180 longitude then
    .error "Longitude must be between -180 and 180"
  else
    .ok { hotel_name := hotel_name, checkin_date := checkin_date,
          checkout_date := checkout_date, city := city, state := state,
          country := country, latitude := latitude, longitude := longitude }

/-- From `models.py`, `CrawledPriceRecord`: the aggregate stored in MongoDB and
cached in Redis.  `platform_prices` keeps first-seen platform order as an
association list. -/
structure CrawledPriceRecord where
  hotel_name : String
  city : String
  country : String
  checkin_date : Date
  checkout_date : Date
  state : Option String := none
  latitude : Option Rat := none
  longitude : Option Rat := none
  platform_prices : List (String × List SearchResult)
  total_results : Nat
  crawled_at : Nat
  job_id : String
deriving DecidableEq, Repr

/-- From `models.py`, `CacheKey`: the fields from which the cache key string is
derived. -/
structure CacheKey where
  hotel_name : String
  city : String
  country : String
  checkin_date : Date
  checkout_date : Date
  state : Option String := none
deriving DecidableEq, Repr

namespace CacheKey

/-- From `models.py` lines 123-126, `CacheKey.to_key`:
`state_part = f":{self.state}" if self.state else ""` followed by
`f"prices:{hotel_name}:{city}:{country}:{checkin}:{checkout}{state_part}"`.
Note Python truthiness: a `None` state and an empty-string state both
yield an empty `state_part`.  Dates render as ISO strings.  No case or
whitespace normalization is applied to any field. -/
def to_key (k : CacheKey) : String :=
  let state_part : String :=
    match k.state with
    | some s => if s = "" then "" else ":" ++ s
    | none => ""
  "prices:" ++ k.hotel_name ++ ":" ++ k.city ++ ":" ++ k.country ++ ":" ++
    k.checkin_date.isoString ++ ":" ++ k.checkout_date.isoString ++ state_part

end CacheKey

/-- From `database.py` lines 95-106, `DatabaseService.get_cache_key`: builds a
`CacheKey` from the criteria fields and renders it. -/
def get_cache_key (hotel_name city country : String)
    (checkin_date checkout_date : Date) (state : Option String) : String :=
  CacheKey.to_key
    { hotel_name := hotel_name, city := city, country := country,
      checkin_date := checkin_date, checkout_date := checkout_date,
      state := state }

lemma get_cache_key_sample :
    get_cache_key "Grand Hotel" "Paris" "France"
      ⟨2025, 6, 1⟩ ⟨2025, 6, 3⟩ none =
      "prices:Grand Hotel:Paris:France:2025-06-01:2025-06-03" := by decide

/-! ## `database.py` — Redis cache and MongoDB store, as explicit state -/

/-- The two storage tiers of `DatabaseService`: the Redis cache as an
association list from key strings to live (unexpired) records — a key
whose TTL has elapsed behaves as absent, so expiry is modelled as the
entry not being present — and the MongoDB collection as the list of
inserted documents. -/
structure DbState where
  redis : List (String × CrawledPriceRecord)
  mongo : List CrawledPriceRecord
deriving DecidableEq, Repr

/-- Association-list lookup, standing in for `redis_client.get`. -/
def redisGet (st : DbState) (key : String) : Option CrawledPriceRecord :=
  (st.redis.find? (fun p => p.1 = key)).map (fun p => p.2)

/-- Python `redis_client.setex`: (re)bind `key`, the new binding shadowing any
older one. -/
def redisSetex (st : DbState) (key : String) (v : CrawledPriceRecord) :
    DbState :=
  { st with redis := (key, v) :: st.redis.filter (fun p => ¬ p.1 = key) }

/-- From `database.py` lines 108-125, `DatabaseService.get_cached_prices`:
derive the cache key from the criteria and look it up in Redis. -/
def get_cached_prices (st : DbState) (hotel_name city country : String)
    (checkin_date checkout_date : Date) (state : Option String) :
    Option CrawledPriceRecord :=
  redisGet st (get_cache_key hotel_name city country checkin_date
    checkout_date state)

/-- From `database.py` lines 127-147, `DatabaseService.cache_prices`: derive the
key from the record's own fields and `setex` it with `Config.CACHE_TTL`. -/
def cache_prices (st : DbState) (r : CrawledPriceRecord) : DbState :=
  redisSetex st
    (get_cache_key r.hotel_name r.city r.country r.checkin_date
      r.checkout_date r.state) r

/-- BSON encoding of `price_record.dict()` as attempted by `insert_one`
(`database.py` line 156).  Pydantic `.dict()` keeps the
`checkin_date`/`checkout_date` fields as `datetime.date` objects (the
`json_encoders` of the model apply only to `.json()`), and BSON can
encode `datetime.datetime` but not `datetime.date`, so the encoding
always raises `InvalidDocument`. -/
def bsonEncodeRecord (_r : CrawledPriceRecord) : Except String String :=
  .error "InvalidDocument: cannot encode object of type datetime.date"

/-- From `database.py` lines 149-163, `DatabaseService.save_prices_to_mongodb`:
`insert_one` of `price_record.dict()` inside a `try`.  The BSON encoding
of the dict raises (see `bsonEncodeRecord`), the `except` catches and
logs it, and the function returns `False` with the collection unchanged;
the successful-insert branch is what the code would do if the record were
encodable. -/
def save_prices_to_mongodb (st : DbState) (r : CrawledPriceRecord) :
    Bool × DbState :=
  match bsonEncodeRecord r with
  | .error _ => (false, st)
  | .ok _ => (true, { st with mongo := st.mongo ++ [r] })

/-- The MongoDB query filter built in `database.py` lines 170-180: exact
match on name/city/country and the ISO date strings; the `state` clause is
added only when `state` is truthy (so a `None` state and an empty-string
state both query without a state filter). -/
def mongoQueryMatches (hotel_name city country : String)
    (checkin_date checkout_date : Date) (state : Option String)
    (r : CrawledPriceRecord) : Bool :=
  r.hotel_name = hotel_name && r.city = city && r.country = country &&
  r.checkin_date.isoString = checkin_date.isoString &&
  r.checkout_date.isoString = checkout_date.isoString &&
  (match state with
   | some s => if s = "" then true else r.state = some s
   | none => true)

/-- MongoDB `find_one(query, sort=[("crawled_at", -1)])`: among the matches, the
record with the greatest `crawled_at` (the first such record when several
tie). -/
def mostRecent (rs : List CrawledPriceRecord) : Option CrawledPriceRecord :=
  rs.foldl (fun best r =>
    match best with
    | none => some r
    | some b => if r.crawled_at > b.crawled_at then some r else some b) none

/-- From `database.py` lines 165-201, `DatabaseService.get_prices_from_mongodb`:
the most recently crawled document matching the criteria filter, if any. -/
def get_prices_from_mongodb (st : DbState) (hotel_name city country : String)
    (checkin_date checkout_date : Date) (state : Option String) :
    Option CrawledPriceRecord :=
  mostRecent (st.mongo.filter
    (mongoQueryMatches hotel_name city country checkin_date checkout_date
      state))

/-- The grouping loop of `database.py` lines 210-215: append `r` to the
bucket of its platform, creating the bucket at the end on first sight
(Python dict insertion order). -/
def insertByPlatform (acc : List (String × List SearchResult))
    (r : SearchResult) : List (String × List SearchResult) :=
  if acc.any (fun p => p.1 = r.platform) then
    acc.map (fun p => if p.1 = r.platform then (p.1, p.2 ++ [r]) else p)
  else
    acc ++ [(r.platform, [r])]

/-- The `platform_prices` mapping built by `save_search_results`. -/
def groupByPlatform (results : List SearchResult) :
    List (String × List SearchResult) :=
  results.foldl insertByPlatform []

/-- From `database.py` lines 203-247, `DatabaseService.save_search_results`:
group the results by platform, build the `CrawledPriceRecord` (with
`total_results = len(results)` and `crawled_at = now`), attempt the
MongoDB insert (which fails, see `save_prices_to_mongodb`) and then cache
the record in Redis (serialized via `.json()`, which does apply the
model's encoders and succeeds).  Returns the overall success flag
(`mongo_success and cache_success` — always `False` here, logged as a
partial save by the caller) together with the resulting state. -/
def save_search_results (st : DbState) (hotel_name city country : String)
    (checkin_date checkout_date : Date) (state : Option String)
    (latitude longitude : Option Rat) (job_id : String)
    (results : List SearchResult) (now : Nat) : Bool × DbState :=
  let price_record : CrawledPriceRecord :=
    { hotel_name := hotel_name, city := city, country := country,
      checkin_date := checkin_date, checkout_date := checkout_date,
      state := state, latitude := latitude, longitude := longitude,
      platform_prices := groupByPlatform results,
      total_results := results.length, crawled_at := now, job_id := job_id }
  let mongoOut := save_prices_to_mongodb st price_record
  (mongoOut.1, cache_prices mongoOut.2 price_record)

/-! ## `crawler_manager.py` — the fan-out orchestrator

The network behaviour of one crawler call is abstracted as a
`CrawlOutcome`: the coroutine either raises, returns a list of records, or
returns a value of an unexpected type.  The orchestrator code itself —
the per-platform exception guard of `_search_platform`, the
`asyncio.gather` collection, and the `isinstance` dispatch of the
processing loop — is embedded directly. -/

/-- Behaviour of one `crawler.search_properties(...)` call as seen by the
orchestrator. -/
inductive CrawlOutcome
  | raises
  | returns (rs : List SearchResult)
  | other
deriving Repr

/-- Value of one slot of the `asyncio.gather(..., return_exceptions=True)`
result list: an exception object, a list of records, or something else. -/
inductive GatherItem
  | exn
  | listRes (rs : List SearchResult)
  | nonList
deriving Repr

/-- From `crawler_manager.py` lines 96-104, `CrawlerManager._search_platform`:
the crawler call runs inside `try`, and any exception is caught and turned
into an empty list — so a raising adapter contributes `[]`, and an
unexpected return value is passed through unchanged. -/
def searchPlatform : CrawlOutcome → GatherItem
  | .raises => .listRes []
  | .returns rs => .listRes rs
  | .other => .nonList

/-- Extracts the record list of a gather slot when it is one (used to
state what the processing loop keeps). -/
def GatherItem.res? : GatherItem → Option (List SearchResult)
  | .listRes rs => some rs
  | _ => none

/-- The result-processing loop of `crawler_manager.py` lines 82-91:
exceptions are logged and skipped, lists are concatenated onto
`all_results` in dispatch order, anything else is logged and skipped. -/
def gatherStep (acc : List SearchResult) : GatherItem → List SearchResult
  | .exn => acc
  | .listRes rs => acc ++ rs
  | .nonList => acc

def processGatherItems (items : List GatherItem) : List SearchResult :=
  items.foldl gatherStep []

/-- From `crawler_manager.py` lines 48-94,
`CrawlerManager.search_all_platforms`: dispatch `_search_platform` for
every registered crawler (in registry order), gather, and concatenate the
list-valued outcomes. -/
def search_all_platforms (crawlers : List (String × CrawlOutcome)) :
    List SearchResult :=
  processGatherItems (crawlers.map (fun p => searchPlatform p.2))

/-! ## `crawlers/base_crawler.py` — the retrying HTTP client

One call of `make_request` is driven by the list of per-attempt network
outcomes; the list has one entry per loop iteration available
(`max_retries` entries for a full run).  `Except.error` is a raised
exception; `Option` is the Python return value (`None` or a response). -/

/-- Outcome of a single `session.request` attempt. -/
inductive AttemptOutcome
  | success (body : String)
  | rateLimited
  | badStatus (code : Nat)
  | exn
deriving DecidableEq, Repr

/-- True when the attempt produced an HTTP 200 response. -/
def AttemptOutcome.isSuccess : AttemptOutcome → Bool
  | .success _ => true
  | _ => false

/-- From `crawlers/base_crawler.py` lines 58-95, `BaseCrawler.make_request`:
`for attempt in range(max_retries)`: a 200 response returns it; a 429
response sleeps the backoff and continues; any other status logs and
continues; an exception logs and continues, unless this was the final
attempt (`attempt == max_retries - 1`), in which case it re-raises.
Falling off the loop returns `None`. -/
def make_request : List AttemptOutcome → Except Unit (Option String)
  | [] => .ok none
  | a :: rest =>
    match a with
    | .success body => .ok (some body)
    | .rateLimited => make_request rest
    | .badStatus _ => make_request rest
    | .exn => if rest.isEmpty then .error () else make_request rest

/-- From `crawlers/base_crawler.py` lines 97-102,
`BaseCrawler.get_page_content`: forwards `make_request`; a `None` response
becomes `None` page content (a raised exception propagates). -/
def get_page_content (attempts : List AttemptOutcome) :
    Except Unit (Option String) :=
  match make_request attempts with
  | .error e => .error e
  | .ok (some resp) => .ok (some resp)
  | .ok none => .ok none

/-! ## `crawlers/airbnb_crawler.py` — one concrete adapter

Markup parsing is out of scope: a fetched page is abstracted as the list
of candidate listing elements, each already classified by what
`_extract_listing_data` would produce for it (a record, or `None` — the
latter covers a missing/unparsable price and an extraction exception,
both of which the loop skips). -/

/-- One candidate listing element of the results page. -/
inductive Candidate
  | usable (r : SearchResult)
  | unusable
deriving DecidableEq, Repr

/-- From `crawlers/airbnb_crawler.py` lines 71-141,
`AirbnbCrawler._extract_listing_data` wrapped in the per-item `try` of
lines 58-64: a usable listing yields its record, anything else yields
`None` and is skipped by the `if result:` guard. -/
def extractCandidate : Candidate → Option SearchResult
  | .usable r => some r
  | .unusable => none

/-- Outcome of `get_page_soup` for the search page. -/
inductive PageFetch
  | failed
  | page (listings : List Candidate)
deriving DecidableEq, Repr

/-- The expression `Config.MAX_PRICE_RESULTS_PER_PLATFORM` as evaluated
inside `crawlers/airbnb_crawler.py` line 57.  The module imports only
`BaseCrawler` and `SearchResult` (lines 7-8) and never imports `Config`,
so evaluating the name raises `NameError` instead of yielding the
configured cap of 10. -/
def airbnbResultCap : Except String Nat :=
  .error "NameError: name Config is not defined"

/-- The extraction loop of `crawlers/airbnb_crawler.py` lines 57-64 in
isolation, applied to a slice bound `cap`: truncate the listings to `cap`
and keep the records of the usable ones. -/
def extractListings (cap : Nat) (listings : List Candidate) :
    List SearchResult :=
  (listings.take cap).filterMap extractCandidate

/-- From `crawlers/airbnb_crawler.py` lines 16-69,
`AirbnbCrawler.search_properties`: a failed page fetch logs and returns
the (empty) results; otherwise line 57 slices the listings with
`Config.MAX_PRICE_RESULTS_PER_PLATFORM`, which raises `NameError` (see
`airbnbResultCap`), and the blanket `except` of line 66 catches it, so
the function returns the still-empty `results` list without running the
extraction loop. -/
def airbnb_search_properties (fetch : PageFetch) : List SearchResult :=
  match fetch with
  | .failed => []
  | .page listings =>
    match airbnbResultCap with
    | .error _ => []
    | .ok cap => extractListings cap listings

/-! ## `main.py` — endpoints, job registry, broadcast -/

/-- Job lifecycle states; the `status` strings written by `main.py`. -/
inductive JobState
  | pending
  | running
  | completed
  | failed
deriving DecidableEq, Repr

/-- One entry of the in-process `active_jobs` dict (`main.py` lines
140-148 plus the fields written later by `run_search_job`).  Progress is
a float in the source but only ever holds `0.0` or `100.0`, embedded as a
`Nat` percentage. -/
structure Job where
  status : JobState
  progress : Nat
  total_platforms : Nat
  completed_platforms : Nat
  results : List SearchResult
  created_at : Nat
  request : PriceRequest
  completed_at : Option Nat := none
  execution_time : Option Nat := none
  error : Option String := none
deriving DecidableEq, Repr

/-- A websocket in `active_connections`.  `job_id` is the path parameter
the client connected with (`/ws/{job_id}`). -/
structure Conn where
  cid : Nat
  job_id : String
deriving DecidableEq, Repr

/-- The mutable process state of `main.py`: the database tiers, the
`active_jobs` registry and the `active_connections` list. -/
structure ServerState where
  db : DbState
  active_jobs : List (String × Job)
  active_connections : List Conn
deriving DecidableEq, Repr

/-- Dict read `active_jobs[job_id]` / `job_id in active_jobs`. -/
def lookupJob (jobs : List (String × Job)) (id : String) : Option Job :=
  (jobs.find? (fun p => p.1 = id)).map (fun p => p.2)

/-- In-place mutation of the entry of `id` (dict item assignment). -/
def updateJob (jobs : List (String × Job)) (id : String) (f : Job → Job) :
    List (String × Job) :=
  jobs.map (fun p => if p.1 = id then (p.1, f p.2) else p)

/-- The JSON body returned by the `/search` endpoint (both the cache-hit
dict of `main.py` lines 127-134 and the job-started dict of lines
153-158). -/
structure SearchResponse where
  job_id : String
  message : String
  status : String
  cached : Bool
  cached_at : Option Nat := none
  total_results : Option Nat := none
deriving DecidableEq, Repr

/-- A task handed to `background_tasks.add_task`. -/
inductive BackgroundTask
  | runSearchJob (job_id : String) (req : PriceRequest)
deriving DecidableEq, Repr

/-- The job dict created by `main.py` lines 140-148: pending, zero
progress, platform counts, empty results. -/
def initialJob (req : PriceRequest) (numPlatforms : Nat) (now : Nat) : Job :=
  { status := .pending, progress := 0, total_platforms := numPlatforms,
    completed_platforms := 0, results := [], created_at := now,
    request := req }

/-- From `main.py` lines 106-158, the `/search` handler
`search_properties`: check the cache first; on a hit return immediately
with `job_id = "cached"`, the cached aggregate's `total_results` and its
`crawled_at` timestamp, touching neither the job registry nor the
background queue.  On a miss, generate a job id, register a pending job
and schedule `run_search_job`.  `platforms` is
`crawler_manager.get_available_platforms()` and `freshId` the value of
`generate_job_id()`. -/
def search_properties (st : ServerState) (platforms : List String)
    (freshId : String) (now : Nat) (req : PriceRequest) :
    SearchResponse × ServerState × List BackgroundTask :=
  match get_cached_prices st.db req.hotel_name req.city req.country
      req.checkin_date req.checkout_date req.state with
  | some cached =>
    ({ job_id := "cached", message := "Results retrieved from cache",
       status := "completed", cached := true,
       cached_at := some cached.crawled_at,
       total_results := some cached.total_results }, st, [])
  | none =>
    ({ job_id := freshId, message := "Search job started",
       status := "pending", cached := false },
     { st with active_jobs :=
         st.active_jobs ++ [(freshId, initialJob req platforms.length now)] },
     [.runSearchJob freshId req])

/-- Outcome of submitting raw criteria to `/search`: FastAPI runs the
pydantic validators while parsing the body, before the handler is
entered, so a `ValidationError` is returned with the handler never run. -/
inductive SubmitOutcome
  | rejected (msg : String)
  | accepted (resp : SearchResponse)
deriving DecidableEq, Repr

/-- The full `/search` submission path: pydantic validation of the body
(`mkPriceRequest`), then the handler. -/
def handleSearchSubmission (st : ServerState) (platforms : List String)
    (freshId : String) (now : Nat) (hotel_name : String)
    (checkin_date checkout_date : Date) (city : String)
    (state : Option String) (country : String)
    (latitude longitude : Option Rat) :
    SubmitOutcome × ServerState × List BackgroundTask :=
  match mkPriceRequest hotel_name checkin_date checkout_date city state
      country latitude longitude with
  | .error e => (.rejected e, st, [])
  | .ok req =>
    let out := search_properties st platforms freshId now req
    (.accepted out.1, out.2.1, out.2.2)

/-- The JSON body returned by `/prices/{hotel_name}` (`main.py` lines
197-249). -/
inductive StoredPricesResponse
  | fromCache (r : CrawledPriceRecord)
  | fromMongo (r : CrawledPriceRecord)
  | notFound
deriving DecidableEq, Repr

/-- From `main.py` lines 197-249, the `/prices/{hotel_name}` handler
`get_stored_prices`: try the cache, then MongoDB, then 404. -/
def get_stored_prices (db : DbState) (hotel_name city country : String)
    (checkin_date checkout_date : Date) (state : Option String) :
    StoredPricesResponse :=
  match get_cached_prices db hotel_name city country checkin_date
      checkout_date state with
  | some r => .fromCache r
  | none =>
    match get_prices_from_mongodb db hotel_name city country checkin_date
        checkout_date state with
    | some r => .fromMongo r
    | none => .notFound

/-- The flattened `PriceMessage` of `models.py` lines 43-58 with its
nested `PriceData`, as built by `send_results_to_websockets`. -/
structure PriceMessage where
  group_id : String
  property_title : String
  city : String
  state : Option String
  country : String
  latitude : Option Rat
  longitude : Option Rat
  platform : String
  currency : String
  amount : Rat
  availability : Bool
  timestamp : Nat
deriving DecidableEq, Repr

/-- Message construction of `main.py` lines 365-380: one message per
result, carrying the job id, the request's location fields and the
result's price data. -/
def mkPriceMessage (job_id : String) (req : PriceRequest)
    (r : SearchResult) : PriceMessage :=
  { group_id := job_id, property_title := r.property_name,
    city := req.city, state := req.state, country := req.country,
    latitude := req.latitude, longitude := req.longitude,
    platform := r.platform, currency := r.currency, amount := r.price,
    availability := r.availability, timestamp := r.fetched_at }

/-- The expression `json.dumps(message_data)` of `main.py` line 388.
`message_data = price_message.dict()` keeps the nested
`price_data.timestamp` as a `datetime` object (the model's
`json_encoders` apply only to `.json()`, and `dict()` does not convert),
and `json.dumps` is called without a `default=` handler, so it always
raises `TypeError` — for every message, before `send_text` is reached. -/
def jsonDumpsMessage (_m : PriceMessage) : Except String String :=
  .error "TypeError: Object of type datetime is not JSON serializable"

/-- One iteration of the per-connection loop of `main.py` lines 386-390
for message `m`: the loop body `send_text(json.dumps(message_data))`
runs inside its own `try/except`, so a raising body is logged and the
loop moves on.  `json.dumps` raises (see `jsonDumpsMessage`), hence
`delivered := false` for every attempt; the `.ok` branch is what would
happen if the message were serializable and `send_text` succeeded. -/
def attemptSend (c : Conn) (m : PriceMessage) : Nat × PriceMessage × Bool :=
  match jsonDumpsMessage m with
  | .error _ => (c.cid, m, false)
  | .ok _ => (c.cid, m, true)

/-- From `main.py` lines 355-390, `send_results_to_websockets`: if the
job is unknown, do nothing; otherwise, for each result in order, build
its message and attempt to send it to every connection in
`active_connections` — every connection, with no filtering by the job
the websocket was opened for.  The returned list records each attempt as
(connection id, message, delivered?); since every `json.dumps` raises
inside the per-connection `try`, no attempt ever delivers. -/
def send_results_to_websockets (jobs : List (String × Job))
    (conns : List Conn) (job_id : String) (results : List SearchResult) :
    List (Nat × PriceMessage × Bool) :=
  match lookupJob jobs job_id with
  | none => []
  | some job =>
    results.flatMap (fun r =>
      conns.map (fun c => attemptSend c (mkPriceMessage job_id job.request r)))

/-- From `main.py` lines 307-353, `run_search_job` (the success path —
see `JobStep` below for the step-level view including failure): mark the
job running, fan out to all platforms, attempt persistence (the returned
success flag only drives a log warning, line 333), then mark the job
completed with progress 100, full platform count and completion
metadata, and run the broadcast loop.  `crawlers` is the
orchestrator's registry, `start`/`finish` the two wall-clock reads.  In
the embedding nothing after the orchestrator call can raise, so the
`except` branch (status `failed`) is unreachable on this path; it is
reachable in `JobStep` from the `running` state, where every fallible
statement of the `try` block executes. -/
def run_search_job (st : ServerState)
    (crawlers : List (String × CrawlOutcome)) (job_id : String)
    (req : PriceRequest) (start finish : Nat) :
    ServerState × List (Nat × PriceMessage × Bool) :=
  match lookupJob st.active_jobs job_id with
  | none => (st, [])
  | some _ =>
    let jobsRunning := updateJob st.active_jobs job_id
      (fun j => { j with status := .running })
    let all_results := search_all_platforms crawlers
    let db' := (save_search_results st.db req.hotel_name req.city
      req.country req.checkin_date req.checkout_date req.state
      req.latitude req.longitude job_id all_results finish).2
    let finishJob : Job → Job := fun j =>
      { j with
        results := all_results
        status := .completed
        progress := 100
        completed_platforms := crawlers.length
        completed_at := some finish
        execution_time := some (finish - start) }
    let jobsDone := updateJob jobsRunning job_id finishJob
    let st' : ServerState :=
      { db := db', active_jobs := jobsDone,
        active_connections := st.active_connections }
    (st', send_results_to_websockets jobsDone st.active_connections job_id
      all_results)

/-! ## The observable job lifecycle, step by step

`run_search_job` above collapses the success path into one state update;
for the lifecycle invariants we also need every intermediate assignment
of `main.py` as its own observable step, including the `except` branch.
Each constructor is one dict mutation of `main.py`; its hypothesis is the
status the job necessarily has when that line runs:

  * `start` — line 313, `status = "running"`, at the top of the `try`;
  * `setResults` — line 337, `results = all_results`, still `running`;
  * `finishStatus` — line 338, `status = "completed"`;
  * `finishProgress` — line 339, `progress = 100.0`, runs right after
    line 338, so the status is already `completed`;
  * `finishMeta` — lines 340-342, the completion counters/timestamps,
    after line 338;
  * `fail` — lines 350-353, the `except` branch.  Every fallible
    statement of the `try` block (the orchestrator call of line 316 and
    the awaited save of line 320; the broadcast's sends are individually
    guarded and the pydantic re-validation of already-validated data
    cannot fail) executes before line 338, while the status is still
    `running`.

A job enters the registry as `initialJob` (`main.py` lines 140-148), so
the reachable states are the closure of `initialJob` under these steps. -/
inductive JobStep : Job → Job → Prop
  | start (j : Job) :
      j.status = .pending → JobStep j { j with status := .running }
  | setResults (j : Job) (rs : List SearchResult) :
      j.status = .running → JobStep j { j with results := rs }
  | finishStatus (j : Job) :
      j.status = .running → JobStep j { j with status := .completed }
  | finishProgress (j : Job) :
      j.status = .completed → JobStep j { j with progress := 100 }
  | finishMeta (j : Job) (n : Nat) (t e : Nat) :
      j.status = .completed →
      JobStep j { j with completed_platforms := n, completed_at := some t,
                         execution_time := some e }
  | fail (j : Job) (msg : String) (e : Nat) :
      j.status = .running →
      JobStep j { j with status := .failed, error := some msg,
                         execution_time := some e }

/-- Job states reachable from job creation by the background task's
mutations. -/
inductive JobReachable : Job → Prop
  | init (req : PriceRequest) (n : Nat) (now : Nat) :
      JobReachable (initialJob req n now)
  | step (j j' : Job) : JobReachable j → JobStep j j' → JobReachable j'

/-- Inductive invariant of the lifecycle: the progress is 0, except on
the completed branch after line 339 where it is 100. -/
def ProgressInv (j : Job) : Prop :=
  j.progress = 0 ∨ (j.progress = 100 ∧ j.status = .completed)

lemma jobStep_progressInv {j j' : Job} (h : JobStep j j')
    (inv : ProgressInv j) : ProgressInv j' := by
  cases h with
  | start hp =>
    left
    rcases inv with h0 | ⟨_, hc⟩
    · simpa using h0
    · rw [hp] at hc; cases hc
  | setResults rs hr =>
    rcases inv with h0 | ⟨_, hc⟩
    · left; simpa using h0
    · rw [hr] at hc; cases hc
  | finishStatus hr =>
    rcases inv with h0 | ⟨_, hc⟩
    · left; simpa using h0
    · rw [hr] at hc; cases hc
  | finishProgress hc =>
    right; exact ⟨rfl, hc⟩
  | finishMeta n t e hc =>
    rcases inv with h0 | ⟨h100, _⟩
    · left; simpa using h0
    · right; exact ⟨h100, hc⟩
  | fail msg e hr =>
    rcases inv with h0 | ⟨_, hc⟩
    · left; simpa using h0
    · rw [hr] at hc; cases hc

lemma jobReachable_progressInv {j : Job} (h : JobReachable j) :
    ProgressInv j := by
  induction h with
  | init req n now => left; rfl
  | step j j' _ hstep ih => exact jobStep_progressInv hstep ih

/-! ## Concrete sample data used by the closed witness theorems -/

/-- The example request of the spec: Grand Hotel, Paris, 2025-06-01 to
2025-06-03. -/
def sampleRequest : PriceRequest :=
  { hotel_name := "Grand Hotel", checkin_date := ⟨2025, 6, 1⟩,
    checkout_date := ⟨2025, 6, 3⟩, city := "Paris", country := "France" }

/-- A sample adapter record. -/
def sampleResult : SearchResult :=
  { platform := "airbnb", property_name := "Grand Hotel", price := 120 }

/-- A sample stored aggregate matching `sampleRequest`. -/
def sampleRecord : CrawledPriceRecord :=
  { hotel_name := "Grand Hotel", city := "Paris", country := "France",
    checkin_date := ⟨2025, 6, 1⟩, checkout_date := ⟨2025, 6, 3⟩,
    platform_prices := [("airbnb", [sampleResult])], total_results := 1,
    crawled_at := 1000, job_id := "job-0" }

/-- A server state with empty tiers and no jobs or connections. -/
def emptyServerState : ServerState :=
  { db := { redis := [], mongo := [] }, active_jobs := [],
    active_connections := [] }

/-- A server state whose cache holds `sampleRecord` under the key of
`sampleRequest`. -/
def cachedServerState : ServerState :=
  { db := { redis := [(get_cache_key "Grand Hotel" "Paris" "France"
        ⟨2025, 6, 1⟩ ⟨2025, 6, 3⟩ none, sampleRecord)], mongo := [] },
    active_jobs := [], active_connections := [] }

/-- A server state with an empty (expired) cache but `sampleRecord`
present in the durable store. -/
def storeOnlyServerState : ServerState :=
  { db := { redis := [], mongo := [sampleRecord] }, active_jobs := [],
    active_connections := [] }

/-! ## Claim C4 — cache-key normalization -/

/-- C4.  The claim says criteria differing only in letter case or
whitespace of name/city map to the same cache key.  They do not:
`to_key` concatenates the raw fields with no normalization, so a
case-changed hotel name and a whitespace-padded city each produce a
different key. -/
theorem C4_counterexample_key_is_case_and_whitespace_sensitive :
    (CacheKey.to_key
        { hotel_name := "Grand Hotel", city := "Paris", country := "France",
          checkin_date := ⟨2025, 6, 1⟩, checkout_date := ⟨2025, 6, 3⟩ } ≠
      CacheKey.to_key
        { hotel_name := "grand hotel", city := "Paris", country := "France",
          checkin_date := ⟨2025, 6, 1⟩, checkout_date := ⟨2025, 6, 3⟩ }) ∧
    (CacheKey.to_key
        { hotel_name := "Grand Hotel", city := "Paris", country := "France",
          checkin_date := ⟨2025, 6, 1⟩, checkout_date := ⟨2025, 6, 3⟩ } ≠
      CacheKey.to_key
        { hotel_name := "Grand Hotel", city := " Paris ", country := "France",
          checkin_date := ⟨2025, 6, 1⟩, checkout_date := ⟨2025, 6, 3⟩ }) := by
  decide

/-- C4 (amended).  The derived cache key is a deterministic pure function
of the six raw fields (name, city, country, checkin, checkout, optional
state) with no further normalization: criteria with equal raw fields get
equal keys, the two derivation sites (`CacheKey.to_key` and
`DatabaseService.get_cache_key`) agree, and an aggregate cached via
`cache_prices` is found again by `get_cached_prices` under the same raw
fields. -/
theorem C4_amended_key_pure_function_of_raw_fields
    (k1 k2 : CacheKey) (hname : k1.hotel_name = k2.hotel_name)
    (hcity : k1.city = k2.city) (hcountry : k1.country = k2.country)
    (hci : k1.checkin_date = k2.checkin_date)
    (hco : k1.checkout_date = k2.checkout_date)
    (hst : k1.state = k2.state) :
    CacheKey.to_key k1 = CacheKey.to_key k2 ∧
    (∀ (h c co : String) (ci ch : Date) (s : Option String),
      get_cache_key h c co ci ch s = CacheKey.to_key ⟨h, c, co, ci, ch, s⟩) ∧
    (∀ (st : DbState) (r : CrawledPriceRecord),
      get_cached_prices (cache_prices st r) r.hotel_name r.city r.country
        r.checkin_date r.checkout_date r.state = some r) := by
  refine ⟨?_, fun h c co ci ch s => rfl, ?_⟩
  · have hk : k1 = k2 := by
      cases k1; cases k2; simp_all
    rw [hk]
  · intro st r
    simp [get_cached_prices, cache_prices, redisGet, redisSetex,
      List.find?]

/-- Witness for C4 (amended) at concrete inputs. -/
theorem C4_amended_witness :
    CacheKey.to_key
      { hotel_name := "Grand Hotel", city := "Paris", country := "France",
        checkin_date := ⟨2025, 6, 1⟩, checkout_date := ⟨2025, 6, 3⟩ } =
    CacheKey.to_key
      { hotel_name := "Grand Hotel", city := "Paris", country := "France",
        checkin_date := ⟨2025, 6, 1⟩, checkout_date := ⟨2025, 6, 3⟩,
        state := none } ∧
    get_cache_key "Grand Hotel" "Paris" "France" ⟨2025, 6, 1⟩ ⟨2025, 6, 3⟩
        none =
      CacheKey.to_key ⟨"Grand Hotel", "Paris", "France", ⟨2025, 6, 1⟩,
        ⟨2025, 6, 3⟩, none⟩ ∧
    get_cached_prices (cache_prices { redis := [], mongo := [] } sampleRecord)
        sampleRecord.hotel_name sampleRecord.city sampleRecord.country
        sampleRecord.checkin_date sampleRecord.checkout_date
        sampleRecord.state = some sampleRecord := by
  have h := C4_amended_key_pure_function_of_raw_fields
    { hotel_name := "Grand Hotel", city := "Paris", country := "France",
      checkin_date := ⟨2025, 6, 1⟩, checkout_date := ⟨2025, 6, 3⟩ }
    { hotel_name := "Grand Hotel", city := "Paris", country := "France",
      checkin_date := ⟨2025, 6, 1⟩, checkout_date := ⟨2025, 6, 3⟩,
      state := none }
    rfl rfl rfl rfl rfl rfl
  exact ⟨h.1, h.2.1 "Grand Hotel" "Paris" "France" ⟨2025, 6, 1⟩
    ⟨2025, 6, 3⟩ none, h.2.2 { redis := [], mongo := [] } sampleRecord⟩

/-! ## Claim C10 — the key derivation is not injective -/

/-- Criteria whose hotel name contains the `":"` separator. -/
def colonKeyA : CacheKey :=
  { hotel_name := "a:b", city := "c", country := "X",
    checkin_date := ⟨2025, 6, 1⟩, checkout_date := ⟨2025, 6, 3⟩ }

/-- Criteria whose city contains the `":"` separator, colliding with
`colonKeyA`. -/
def colonKeyB : CacheKey :=
  { hotel_name := "a", city := "b:c", country := "X",
    checkin_date := ⟨2025, 6, 1⟩, checkout_date := ⟨2025, 6, 3⟩ }

/-- Criteria with an empty-string state. -/
def emptyStateKey : CacheKey :=
  { hotel_name := "h", city := "c", country := "X",
    checkin_date := ⟨2025, 6, 1⟩, checkout_date := ⟨2025, 6, 3⟩,
    state := some "" }

/-- Criteria with no state, colliding with `emptyStateKey`. -/
def noStateKey : CacheKey :=
  { hotel_name := "h", city := "c", country := "X",
    checkin_date := ⟨2025, 6, 1⟩, checkout_date := ⟨2025, 6, 3⟩,
    state := none }

/-- C10.  Two pairs of criteria with different field tuples but equal
keys: a `":"` inside the hotel name shifts the field boundary into the
city, and an empty-string state collides with an absent state because of
Python truthiness in `to_key`. -/
theorem C10_key_not_injective_across_distinct_criteria :
    (colonKeyA ≠ colonKeyB ∧
      CacheKey.to_key colonKeyA = CacheKey.to_key colonKeyB) ∧
    (emptyStateKey ≠ noStateKey ∧
      CacheKey.to_key emptyStateKey = CacheKey.to_key noStateKey) := by
  decide

/-! ## Claim C7 — invalid dates rejected before any job exists -/

/-- C7.  Submitting criteria with `checkout_date <= checkin_date` fails
pydantic validation before the handler runs: the submission returns the
`ValidationError`, the job registry (indeed the whole server state) is
unchanged, and no background task — hence no job id — is created. -/
theorem C7_checkout_not_after_checkin_rejected
    (st : ServerState) (platforms : List String) (freshId : String)
    (now : Nat) (hotel_name : String) (checkin_date checkout_date : Date)
    (city : String) (state : Option String) (country : String)
    (latitude longitude : Option Rat)
    (h : Date.le checkout_date checkin_date) :
    handleSearchSubmission st platforms freshId now hotel_name checkin_date
      checkout_date city state country latitude longitude =
      (.rejected "Checkout date must be after checkin date", st, []) := by
  unfold handleSearchSubmission mkPriceRequest
  rw [if_pos h]

/-- Witness for C7: an equal-dates request against the empty server
state. -/
theorem C7_witness :
    Date.le ⟨2025, 6, 1⟩ ⟨2025, 6, 1⟩ ∧
    handleSearchSubmission emptyServerState ["airbnb", "booking"] "job-1" 5
      "Grand Hotel" ⟨2025, 6, 1⟩ ⟨2025, 6, 1⟩ "Paris" none "France" none
      none =
      (.rejected "Checkout date must be after checkin date",
        emptyServerState, []) :=
  ⟨by decide,
    C7_checkout_not_after_checkin_rejected emptyServerState
      ["airbnb", "booking"] "job-1" 5 "Grand Hotel" ⟨2025, 6, 1⟩
      ⟨2025, 6, 1⟩ "Paris" none "France" none none (by decide)⟩

/-! ## Claim C2 — cache-hit idempotence -/

/-- C2.  When the cache holds an entry for the criteria, `/search`
returns the stored aggregate's retrieval timestamp and total count
immediately with the literal job id `"cached"`: the job registry and the
rest of the server state are untouched and no background task is
scheduled, so no adapter runs and no new job id is generated. -/
theorem C2_cache_hit_returns_immediately
    (st : ServerState) (platforms : List String) (freshId : String)
    (now : Nat) (req : PriceRequest) (r : CrawledPriceRecord)
    (h : get_cached_prices st.db req.hotel_name req.city req.country
      req.checkin_date req.checkout_date req.state = some r) :
    search_properties st platforms freshId now req =
      ({ job_id := "cached", message := "Results retrieved from cache",
         status := "completed", cached := true,
         cached_at := some r.crawled_at,
         total_results := some r.total_results }, st, []) := by
  unfold search_properties
  rw [h]

/-- Witness for C2: a repeat of `sampleRequest` against the state whose
cache already holds `sampleRecord`. -/
theorem C2_witness :
    get_cached_prices cachedServerState.db sampleRequest.hotel_name
      sampleRequest.city sampleRequest.country sampleRequest.checkin_date
      sampleRequest.checkout_date sampleRequest.state = some sampleRecord ∧
    search_properties cachedServerState ["airbnb", "booking"] "job-1" 5
      sampleRequest =
      ({ job_id := "cached", message := "Results retrieved from cache",
         status := "completed", cached := true, cached_at := some 1000,
         total_results := some 1 }, cachedServerState, []) :=
  ⟨by decide,
    C2_cache_hit_returns_immediately cachedServerState ["airbnb", "booking"]
      "job-1" 5 sampleRequest sampleRecord (by decide)⟩

/-! ## Claim C3 — cache miss with a store hit -/

/-- C3.  The claim says a search whose cache entry is absent but whose
criteria match a durable-store record returns the store record without
new orchestration.  It does not: the `/search` handler consults only the
cache, and on a cache miss it creates a job and schedules orchestration
even though `get_prices_from_mongodb` would find the record. -/
theorem C3_counterexample_submission_skips_store :
    get_cached_prices storeOnlyServerState.db "Grand Hotel" "Paris"
      "France" ⟨2025, 6, 1⟩ ⟨2025, 6, 3⟩ none = none ∧
    get_prices_from_mongodb storeOnlyServerState.db "Grand Hotel" "Paris"
      "France" ⟨2025, 6, 1⟩ ⟨2025, 6, 3⟩ none = some sampleRecord ∧
    search_properties storeOnlyServerState ["airbnb"] "job-1" 5
      sampleRequest =
      ({ job_id := "job-1", message := "Search job started",
         status := "pending", cached := false },
       { storeOnlyServerState with
          active_jobs := [("job-1", initialJob sampleRequest 1 5)] },
       [.runSearchJob "job-1" sampleRequest]) := by
  decide

/-- C3 (amended).  The `/search` submission path consults only the fast
cache: on any cache miss it registers a new pending job and re-triggers
full orchestration, whatever the durable store contains.  The
store-fallback behaviour the claim describes belongs to the separate
historical endpoint `/prices/{hotel_name}` (`get_stored_prices`), which
on a cache miss does return the most recent matching store record without
creating a job. -/
theorem C3_amended_store_fallback_only_in_history_endpoint
    (st : ServerState) (platforms : List String) (freshId : String)
    (now : Nat) (req : PriceRequest)
    (hmiss : get_cached_prices st.db req.hotel_name req.city req.country
      req.checkin_date req.checkout_date req.state = none) :
    search_properties st platforms freshId now req =
      ({ job_id := freshId, message := "Search job started",
         status := "pending", cached := false },
       { st with active_jobs := st.active_jobs ++
           [(freshId, initialJob req platforms.length now)] },
       [.runSearchJob freshId req]) ∧
    (∀ r : CrawledPriceRecord,
      get_prices_from_mongodb st.db req.hotel_name req.city req.country
        req.checkin_date req.checkout_date req.state = some r →
      get_stored_prices st.db req.hotel_name req.city req.country
        req.checkin_date req.checkout_date req.state = .fromMongo r) := by
  constructor
  · unfold search_properties
    rw [hmiss]
  · intro r hr
    unfold get_stored_prices
    rw [hmiss, hr]

/-- Witness for C3 (amended) at the store-only state. -/
theorem C3_amended_witness :
    search_properties storeOnlyServerState ["airbnb"] "job-1" 5
      sampleRequest =
      ({ job_id := "job-1", message := "Search job started",
         status := "pending", cached := false },
       { storeOnlyServerState with
          active_jobs := [("job-1", initialJob sampleRequest 1 5)] },
       [.runSearchJob "job-1" sampleRequest]) ∧
    get_stored_prices storeOnlyServerState.db sampleRequest.hotel_name
      sampleRequest.city sampleRequest.country sampleRequest.checkin_date
      sampleRequest.checkout_date sampleRequest.state =
      .fromMongo sampleRecord := by
  have h := C3_amended_store_fallback_only_in_history_endpoint
    storeOnlyServerState ["airbnb"] "job-1" 5 sampleRequest (by decide)
  exact ⟨h.1, h.2 sampleRecord (by decide)⟩

/-! ## Claim C5 — progress is monotone and 100 only when completed -/

/-- C5.  Along the job lifecycle: a job is created with progress 0, no
step of the background task ever decreases the progress of a reachable
job, and a reachable job whose progress is 100 is in the `completed`
state (so a job that ends `failed` never reports 100). -/
theorem C5_progress_monotone_and_full_only_when_completed :
    (∀ (req : PriceRequest) (n now : Nat),
      (initialJob req n now).progress = 0) ∧
    (∀ j j', JobReachable j → JobStep j j' → j.progress ≤ j'.progress) ∧
    (∀ j, JobReachable j → j.progress = 100 →
      j.status = JobState.completed) := by
  refine ⟨fun req n now => rfl, ?_, ?_⟩
  · intro j j' hreach hstep
    cases hstep with
    | start hp => exact Nat.le_refl _
    | setResults rs hr => exact Nat.le_refl _
    | finishStatus hr => exact Nat.le_refl _
    | finishProgress hc =>
      show j.progress ≤ 100
      rcases jobReachable_progressInv hreach with h0 | ⟨h100, _⟩
      · rw [h0]; exact Nat.zero_le _
      · rw [h100]
    | finishMeta n t e hc => exact Nat.le_refl _
    | fail msg e hr => exact Nat.le_refl _
  · intro j hreach h100
    rcases jobReachable_progressInv hreach with h0 | ⟨_, hc⟩
    · rw [h0] at h100; exact absurd h100 (by decide)
    · exact hc

/-- First intermediate job state of the witness trace: running. -/
def traceJob1 : Job := { initialJob sampleRequest 6 0 with status := .running }

/-- Second intermediate job state of the witness trace: status completed,
progress not yet written. -/
def traceJob2 : Job := { traceJob1 with status := .completed }

/-- Final job state of the witness trace: completed with progress 100. -/
def traceJob3 : Job := { traceJob2 with progress := 100 }

/-- Witness for C5 on a concrete trace
pending → running → completed → progress 100. -/
theorem C5_witness :
    (initialJob sampleRequest 6 0).progress = 0 ∧
    (initialJob sampleRequest 6 0).progress ≤ traceJob1.progress ∧
    traceJob3.status = JobState.completed := by
  have h := C5_progress_monotone_and_full_only_when_completed
  have r0 : JobReachable (initialJob sampleRequest 6 0) :=
    .init sampleRequest 6 0
  have s01 : JobStep (initialJob sampleRequest 6 0) traceJob1 :=
    JobStep.start _ rfl
  have r1 : JobReachable traceJob1 := .step _ _ r0 s01
  have s12 : JobStep traceJob1 traceJob2 := JobStep.finishStatus _ rfl
  have r2 : JobReachable traceJob2 := .step _ _ r1 s12
  have s23 : JobStep traceJob2 traceJob3 := JobStep.finishProgress _ rfl
  have r3 : JobReachable traceJob3 := .step _ _ r2 s23
  exact ⟨h.1 sampleRequest 6 0, h.2.1 _ _ r0 s01, h.2.2 traceJob3 r3 rfl⟩

/-! ## Claim C6 — exhausted retries -/

/-- C6.  The claim says that whenever all configured attempts are
exhausted without success — whether each attempt raised or merely got a
non-success or rate-limit response — `make_request` raises.  It does
not: with three attempts all answered by HTTP 500, the loop falls
through and returns `None` (`Except.ok none`, not an exception);
`get_page_content` forwards the `None`, and the adapter's
`if not soup: return results` turns it into an empty result list. -/
theorem C6_counterexample_status_exhaustion_returns_none :
    (∀ a ∈ [AttemptOutcome.badStatus 500, .badStatus 500, .badStatus 500],
      a.isSuccess = false) ∧
    make_request [.badStatus 500, .badStatus 500, .badStatus 500] =
      .ok none ∧
    get_page_content [.badStatus 500, .badStatus 500, .badStatus 500] =
      .ok none ∧
    airbnb_search_properties .failed = [] := by
  refine ⟨fun a ha => ?_, rfl, rfl, rfl⟩
  fin_cases ha <;> rfl

/-- C6 (amended).  When every attempt fails (none returns HTTP 200),
`make_request` raises exactly when the final attempt itself raised an
exception; exhaustion through non-success or rate-limit responses
instead returns `None`, which callers treat as an empty result. -/
theorem C6_amended_raises_iff_final_attempt_raised
    (attempts : List AttemptOutcome)
    (h : ∀ a ∈ attempts, a.isSuccess = false) :
    (make_request attempts = .error () ↔
      attempts.getLast? = some .exn) := by
  induction attempts with
  | nil => simp [make_request]
  | cons a rest ih =>
    have hrest : ∀ b ∈ rest, b.isSuccess = false :=
      fun b hb => h b (List.mem_cons_of_mem a hb)
    cases a with
    | success body =>
      have ha : AttemptOutcome.isSuccess (.success body) = false :=
        h _ (List.mem_cons_self _ _)
      exact absurd ha (by simp [AttemptOutcome.isSuccess])
    | rateLimited =>
      cases rest with
      | nil => simp [make_request]
      | cons b bs =>
        rw [List.getLast?_cons_cons]
        exact ih hrest
    | badStatus code =>
      cases rest with
      | nil => simp [make_request]
      | cons b bs =>
        rw [List.getLast?_cons_cons]
        exact ih hrest
    | exn =>
      cases rest with
      | nil => simp [make_request]
      | cons b bs =>
        rw [List.getLast?_cons_cons]
        exact ih hrest

/-- Witness for C6 (amended): one failed-status attempt followed by a
final raising attempt makes `make_request` raise. -/
theorem C6_amended_witness :
    make_request [AttemptOutcome.badStatus 500, .exn] = .error () :=
  (C6_amended_raises_iff_final_attempt_raised
      [AttemptOutcome.badStatus 500, .exn]
      (fun a ha => by fin_cases ha <;> rfl)).mpr rfl

/-! ## Claim C8 — the websocket broadcast -/

/-- A job registered under id `"A"`. -/
def jobForA : Job := initialJob sampleRequest 2 0

/-- C8.  The claim says the broadcast delivers one message per record to
every listener subscribed to the job (and to no other job's listeners),
with per-listener failures isolated.  The code cannot deliver anything:
`json.dumps(message_data)` raises `TypeError` on the `datetime`
timestamp inside every per-connection `try` (`main.py` lines 386-390),
so every send attempt fails and the successful-delivery set is always
empty — here, at a job with one record and two connections (one of them
subscribed to a different job, since the loop also ignores the
subscription), both attempts are made and neither delivers. -/
theorem C8_code_bug_broadcast_serialization_failure :
    (∀ (jobs : List (String × Job)) (conns : List Conn) (job_id : String)
       (results : List SearchResult),
      (send_results_to_websockets jobs conns job_id results).all
        (fun a => !a.2.2) = true) ∧
    jsonDumpsMessage (mkPriceMessage "A" sampleRequest sampleResult) =
      .error "TypeError: Object of type datetime is not JSON serializable" ∧
    send_results_to_websockets [("A", jobForA)]
        [Conn.mk 1 "A", Conn.mk 2 "B"] "A" [sampleResult] =
      [(1, mkPriceMessage "A" sampleRequest sampleResult, false),
       (2, mkPriceMessage "A" sampleRequest sampleResult, false)] := by
  refine ⟨?_, rfl, rfl⟩
  intro jobs conns job_id results
  unfold send_results_to_websockets
  cases h : lookupJob jobs job_id with
  | none => rfl
  | some job =>
    rw [List.all_eq_true]
    intro a ha
    rcases List.mem_flatMap.mp ha with ⟨r, _, hmem⟩
    rcases List.mem_map.mp hmem with ⟨c, _, hc⟩
    rw [← hc]
    rfl

/-! ## Claim C9 — the adapter's bounded extraction -/

/-- A usable listing for the C9 evaluation. -/
def usableListing : Candidate :=
  .usable { platform := "airbnb", property_name := "Test Inn",
            price := 120 }

/-- C9.  The claim describes the intended contract of
`AirbnbCrawler.search_properties`: at most
`MAX_PRICE_RESULTS_PER_PLATFORM` (10) records, malformed items skipped.
The code cannot deliver it: `airbnb_crawler.py` never imports `Config`,
so line 57 raises `NameError` before the extraction loop starts and the
blanket `except` turns every fetched page — here one with a single
well-formed listing — into zero records, while the extraction loop as
written (with the configured cap of 10) would return that listing's
record. -/
theorem C9_code_bug_missing_config_import :
    airbnb_search_properties (.page [usableListing]) = [] ∧
    airbnbResultCap = .error "NameError: name Config is not defined" ∧
    extractListings Config.MAX_PRICE_RESULTS_PER_PLATFORM [usableListing] =
      [{ platform := "airbnb", property_name := "Test Inn", price := 120 }] ∧
    (∀ (cap : Nat) (listings : List Candidate),
      (extractListings cap listings).length ≤ cap) := by
  refine ⟨rfl, rfl, rfl, ?_⟩
  intro cap listings
  calc (extractListings cap listings).length
      ≤ (listings.take cap).length := List.length_filterMap_le _ _
    _ ≤ cap := by simp

/-! ## Claim C1 — failure isolation in the fan-out -/

lemma foldl_gatherStep_acc (items : List GatherItem)
    (acc : List SearchResult) :
    items.foldl gatherStep acc = acc ++ items.foldl gatherStep [] := by
  induction items generalizing acc with
  | nil => simp
  | cons a items ih =>
    cases a with
    | exn => simpa [gatherStep] using ih acc
    | listRes rs =>
      simp only [List.foldl_cons, gatherStep, List.nil_append]
      rw [ih (acc ++ rs), ih rs, List.append_assoc]
    | nonList => simpa [gatherStep] using ih acc

/-- The fan-out distributes over concatenation of the registry. -/
lemma search_all_platforms_append (xs ys : List (String × CrawlOutcome)) :
    search_all_platforms (xs ++ ys) =
      search_all_platforms xs ++ search_all_platforms ys := by
  simp only [search_all_platforms, processGatherItems, List.map_append,
    List.foldl_append]
  rw [foldl_gatherStep_acc]

/-- On a segment of adapters that all return their lists, the fan-out
yields the concatenation of those lists in dispatch order. -/
lemma search_all_platforms_returns
    (xs : List (String × List SearchResult)) :
    search_all_platforms (xs.map (fun q => (q.1, CrawlOutcome.returns q.2)))
      = (xs.map Prod.snd).flatten := by
  induction xs with
  | nil => rfl
  | cons q xs ih =>
    simp only [List.map_cons, search_all_platforms, processGatherItems,
      List.foldl_cons, searchPlatform, gatherStep, List.nil_append,
      List.flatten_cons] at *
    rw [foldl_gatherStep_acc, ih]

/-- A single raising adapter contributes no records. -/
lemma search_all_platforms_raises (p : String) :
    search_all_platforms [(p, CrawlOutcome.raises)] = [] := rfl

/-- Reading a job back after updating it in the registry. -/
lemma lookupJob_updateJob (jobs : List (String × Job)) (id : String)
    (f : Job → Job) :
    lookupJob (updateJob jobs id f) id = (lookupJob jobs id).map f := by
  induction jobs with
  | nil => rfl
  | cons p ps ih =>
    by_cases hp : p.1 = id
    · simp [lookupJob, updateJob, List.find?_cons, hp]
    · simpa [lookupJob, updateJob, List.find?_cons, hp] using ih

/-- C1.  With the registry holding `N = |pre| + 1 + |post|` adapters of
which exactly the middle one raises and the rest return their record
lists, the fan-out returns the concatenation of the surviving adapters'
records in dispatch order, and the background job transition marks the
registered job `completed` with exactly those records, so its total
result count is the sum of the surviving adapters' record counts. -/
theorem C1_single_adapter_failure_isolated
    (pre post : List (String × List SearchResult)) (p : String)
    (st : ServerState) (job_id : String) (req : PriceRequest) (j0 : Job)
    (hreg : lookupJob st.active_jobs job_id = some j0)
    (start finish : Nat) :
    search_all_platforms
        (pre.map (fun q => (q.1, CrawlOutcome.returns q.2)) ++
         [(p, CrawlOutcome.raises)] ++
         post.map (fun q => (q.1, CrawlOutcome.returns q.2))) =
      (pre.map Prod.snd).flatten ++ (post.map Prod.snd).flatten ∧
    (lookupJob (run_search_job st
        (pre.map (fun q => (q.1, CrawlOutcome.returns q.2)) ++
         [(p, CrawlOutcome.raises)] ++
         post.map (fun q => (q.1, CrawlOutcome.returns q.2)))
        job_id req start finish).1.active_jobs job_id).map
        (fun j => (j.status, j.results, j.results.length)) =
      some (JobState.completed,
        (pre.map Prod.snd).flatten ++ (post.map Prod.snd).flatten,
        (pre.map (fun q => q.2.length)).sum +
          (post.map (fun q => q.2.length)).sum) := by
  have hfan : search_all_platforms
      (pre.map (fun q => (q.1, CrawlOutcome.returns q.2)) ++
       [(p, CrawlOutcome.raises)] ++
       post.map (fun q => (q.1, CrawlOutcome.returns q.2))) =
      (pre.map Prod.snd).flatten ++ (post.map Prod.snd).flatten := by
    rw [search_all_platforms_append, search_all_platforms_append,
      search_all_platforms_returns, search_all_platforms_returns,
      search_all_platforms_raises]
    simp
  refine ⟨hfan, ?_⟩
  unfold run_search_job
  rw [hreg]
  simp only [lookupJob_updateJob, hreg, Option.map_some, Option.map_map,
    Function.comp]
  rw [hfan]
  simp [List.length_append, List.length_flatten, List.map_map,
    Function.comp_def]

/-- A second sample record from another platform. -/
def vrboResultA : SearchResult :=
  { platform := "vrbo", property_name := "Grand Hotel", price := 150 }

/-- A third sample record from the same other platform. -/
def vrboResultB : SearchResult :=
  { platform := "vrbo", property_name := "Grand Hotel Annex", price := 95 }

/-- A server state with one pending job `job-1` registered for
`sampleRequest` over three platforms. -/
def fanOutServerState : ServerState :=
  { db := { redis := [], mongo := [] },
    active_jobs := [("job-1", initialJob sampleRequest 3 0)],
    active_connections := [] }

/-- Witness for C1: three adapters of which `booking` raises; the job
completes with the three surviving records and total count 1 + 2. -/
theorem C1_witness :
    search_all_platforms
        [("airbnb", CrawlOutcome.returns [sampleResult]),
         ("booking", CrawlOutcome.raises),
         ("vrbo", CrawlOutcome.returns [vrboResultA, vrboResultB])] =
      [sampleResult, vrboResultA, vrboResultB] ∧
    (lookupJob (run_search_job fanOutServerState
        [("airbnb", CrawlOutcome.returns [sampleResult]),
         ("booking", CrawlOutcome.raises),
         ("vrbo", CrawlOutcome.returns [vrboResultA, vrboResultB])]
        "job-1" sampleRequest 0 9).1.active_jobs "job-1").map
        (fun j => (j.status, j.results, j.results.length)) =
      some (JobState.completed, [sampleResult, vrboResultA, vrboResultB],
        3) := by
  have h := C1_single_adapter_failure_isolated
    [("airbnb", [sampleResult])] [("vrbo", [vrboResultA, vrboResultB])]
    "booking" fanOutServerState "job-1" sampleRequest
    (initialJob sampleRequest 3 0) (by decide) 0 9
  simpa using h
